import Mathlib

/-!
# Verification of the devision backend (Django) payload-assembly and query logic

Shallow embedding of `api/views.py`, `accounts/serializers.py`,
`accounts/views.py`, `accounts/models.py` and `hackathons/models.py`.
The relational store is modelled as lists of records; Django querysets
become filter / sort / slice pipelines over those lists; timestamps are
natural numbers (unix seconds); primary keys are natural numbers.
-/

namespace Devision

/-! ## Generic list machinery: sorting by a key and queryset slicing -/

/-- Queryset slicing `qs[offset : offset + limit]`. -/
def sliceQs (offset limit : Nat) (l : List α) : List α :=
  (l.drop offset).take limit

theorem sliceQs_sublist (offset limit : Nat) (l : List α) :
    List.Sublist (sliceQs offset limit l) l :=
  ((l.drop offset).take_sublist limit).trans (l.drop_sublist offset)

theorem mem_of_mem_sliceQs {offset limit : Nat} {l : List α} {x : α}
    (hx : x ∈ sliceQs offset limit l) : x ∈ l :=
  (sliceQs_sublist offset limit l).subset hx

theorem length_sliceQs_le (offset limit : Nat) (l : List α) :
    (sliceQs offset limit l).length ≤ limit := by
  simp [sliceQs]

theorem pairwise_sliceQs {R : α → α → Prop} {l : List α}
    (h : l.Pairwise R) (offset limit : Nat) :
    (sliceQs offset limit l).Pairwise R :=
  h.sublist (sliceQs_sublist offset limit l)

/-- `ORDER BY key ASC`, modelled as a stable insertion sort. -/
def sortAscBy (k : α → Nat) (l : List α) : List α :=
  l.insertionSort (fun a b => k a ≤ k b)

/-- `ORDER BY key DESC`, modelled as a stable insertion sort. -/
def sortDescBy (k : α → Nat) (l : List α) : List α :=
  l.insertionSort (fun a b => k b ≤ k a)

theorem sortAscBy_pairwise (k : α → Nat) (l : List α) :
    (sortAscBy k l).Pairwise (fun a b => k a ≤ k b) := by
  haveI : IsTotal α (fun a b => k a ≤ k b) := ⟨fun a b => Nat.le_total (k a) (k b)⟩
  haveI : IsTrans α (fun a b => k a ≤ k b) := ⟨fun _ _ _ hab hbc => Nat.le_trans hab hbc⟩
  simpa [List.Sorted, sortAscBy] using
    List.sorted_insertionSort (fun a b => k a ≤ k b) l

theorem sortDescBy_pairwise (k : α → Nat) (l : List α) :
    (sortDescBy k l).Pairwise (fun a b => k b ≤ k a) := by
  haveI : IsTotal α (fun a b => k b ≤ k a) := ⟨fun a b => Nat.le_total (k b) (k a)⟩
  haveI : IsTrans α (fun a b => k b ≤ k a) := ⟨fun _ _ _ hab hbc => Nat.le_trans hbc hab⟩
  simpa [List.Sorted, sortDescBy] using
    List.sorted_insertionSort (fun a b => k b ≤ k a) l

theorem mem_sortAscBy {k : α → Nat} {l : List α} {x : α} :
    x ∈ sortAscBy k l ↔ x ∈ l :=
  (List.perm_insertionSort (fun a b => k a ≤ k b) l).mem_iff

theorem mem_sortDescBy {k : α → Nat} {l : List α} {x : α} :
    x ∈ sortDescBy k l ↔ x ∈ l :=
  (List.perm_insertionSort (fun a b => k b ≤ k a) l).mem_iff

/-- In a sorted list, every element of an initial segment is related to
every element outside that segment. -/
theorem pairwise_take_rel {R : α → α → Prop} {l : List α} (h : l.Pairwise R)
    (n : Nat) {x y : α} (hx : x ∈ l.take n) (hy : y ∈ l) (hy' : y ∉ l.take n) :
    R x y := by
  have hsplit : l.take n ++ l.drop n = l := l.take_append_drop n
  have h2 : (l.take n ++ l.drop n).Pairwise R := by rw [hsplit]; exact h
  have h3 := (List.pairwise_append.mp h2).2.2
  have hyd : y ∈ l.drop n := by
    have := hsplit ▸ hy
    rcases List.mem_append.mp this with hyt | hyd
    · exact absurd hyt hy'
    · exact hyd
  exact h3 x hx y hyd

/-- `needle` is a prefix of `hay`. -/
def prefixOfList [DecidableEq α] : List α → List α → Bool
  | [], _ => true
  | _ :: _, [] => false
  | a :: as, b :: bs => a = b && prefixOfList as bs

/-- `needle` occurs contiguously inside `hay`. -/
def infixOfList [DecidableEq α] (needle : List α) : List α → Bool
  | [] => prefixOfList needle []
  | b :: bs => prefixOfList needle (b :: bs) || infixOfList needle bs

/-- `s.startswith(pre)` on the character lists (kernel-reducible). -/
def strStartsWith (s pre : String) : Bool :=
  prefixOfList pre.toList s.toList

/-- `s.endswith(suffix)` on the character lists (kernel-reducible). -/
def strEndsWith (s suffix : String) : Bool :=
  prefixOfList suffix.toList.reverse s.toList.reverse

/-! ## Python values

Inbound JSON payload values (`request.data`).  The validation code only ever
inspects strings, integers, flat lists and `None`, so list elements are
modelled by the flat `PyAtom` type. -/

inductive PyAtom where
  | astr (s : String)
  | aint (n : Int)
  | anone
deriving DecidableEq

inductive PyVal where
  | pstr (s : String)
  | pint (n : Int)
  | plist (xs : List PyAtom)
  | pnone
deriving DecidableEq

/-- Python `str(x)` on a list element (used by the `profile_gradient` cast). -/
def PyAtom.toStr : PyAtom → String
  | .astr s => s
  | .aint n => toString n
  | .anone => "None"

/-! ## Data model (`accounts/models.py`, `hackathons/models.py`) -/

/-- `accounts.models.User` (the fields read or written by the verified code). -/
structure UserR where
  id : Nat
  email : String
  username : String
  firstName : String
  lastName : String
  visibility : String
  xp : Nat
  xpNeeded : Nat
  level : Nat
  school : Option Nat
  gradYear : Option Nat
  major : Option Nat
  discord : Option String
  instagram : Option String
  github : Option String
  linkedin : Option String
  personal : Option String
  bio : String
  skills : List Nat
  interests : List Nat
  blocked : List PyAtom
  profileGradient : List String
  dateJoined : Nat
deriving DecidableEq

/-- `accounts.models.Friendship`. -/
structure FriendshipR where
  user : Nat
  friend : Nat
  createdAt : Nat
deriving DecidableEq

/-- `hackathons.models.Team`. -/
structure TeamR where
  id : Nat
  name : String
  createdAt : Nat
deriving DecidableEq

/-- `hackathons.models.TeamMembership`. -/
structure MembershipR where
  user : Nat
  team : Nat
  joinedAt : Nat
deriving DecidableEq

/-- `hackathons.models.Hackathon`. -/
structure HackathonR where
  id : Nat
  name : String
  description : String
  startDate : Nat
  endDate : Nat
deriving DecidableEq

/-- `hackathons.models.HackathonTeam`. -/
structure HTeamR where
  hackathon : Nat
  team : Nat
  placement : Option Nat
  createdAt : Nat
deriving DecidableEq

/-- The relational store.  `schools`, `majors`, `skills`, `interests` are the
primary-key sets of the corresponding lookup tables. -/
structure DB where
  users : List UserR
  friendships : List FriendshipR
  teams : List TeamR
  memberships : List MembershipR
  hackathons : List HackathonR
  hackathonTeams : List HTeamR
  schools : List Nat
  majors : List Nat
  skills : List Nat
  interests : List Nat
deriving DecidableEq

def findUser (db : DB) (uid : Nat) : Option UserR :=
  db.users.find? (fun v => v.id = uid)

def findTeam (db : DB) (tid : Nat) : Option TeamR :=
  db.teams.find? (fun t => t.id = tid)

def findHackathon (db : DB) (hid : Nat) : Option HackathonR :=
  db.hackathons.find? (fun h => h.id = hid)

/-- `team.members.all()`: the users related through `TeamMembership`. -/
def teamMembers (db : DB) (tid : Nat) : List Nat :=
  (db.memberships.filter (fun m => m.team = tid)).map (fun m => m.user)

/-- Distinct users across a hackathon's teams.  This is both
`Hackathon.participants_count` and the search view's
`Count("hackathon_teams__team__members", distinct=True)` annotation. -/
def hackathonParticipants (db : DB) (hid : Nat) : List Nat :=
  (((db.hackathonTeams.filter (fun e => e.hackathon = hid)).map
      (fun e => teamMembers db e.team)).flatten).dedup

def participantsCount (db : DB) (hid : Nat) : Nat :=
  (hackathonParticipants db hid).length

/-! ## Helpers (`api/views.py`) -/

/-- `compute_xp_needed(level, xp) = max(max(level, 1) * 100 - xp, 0)`.
`Nat` truncated subtraction coincides with Python's `max(target - xp, 0)`
since both arguments are non-negative. -/
def compute_xp_needed (level xp : Nat) : Nat :=
  max level 1 * 100 - xp

/-- The `expected_needed` refresh step of `ensure_user_defaults`. -/
def refreshXpNeeded (v1 : UserR) : UserR :=
  if v1.xpNeeded ≠ compute_xp_needed v1.level v1.xp then
    { v1 with xpNeeded := compute_xp_needed v1.level v1.xp }
  else v1

/-- `ensure_user_defaults`.  The randomly generated gradient is modelled by
the `grad` parameter (`generate_gradient()` always yields two hex strings,
so in particular a non-empty list).  Note `user.level or 1` equals
`max level 1` inside `compute_xp_needed`, so passing `level` directly is
exact. -/
def ensure_user_defaults (grad : List String) (v : UserR) : UserR :=
  refreshXpNeeded
    (if v.profileGradient = [] then { v with profileGradient := grad } else v)

/-- Python `int(s)` on a string: optional surrounding whitespace, optional
sign, decimal digits (`int` underscores / unicode digits are not modelled;
no claim depends on them). -/
def digitsToNat : List Char → Option Nat
  | [] => none
  | cs =>
    if cs.all Char.isDigit then
      some (cs.foldl (fun n c => n * 10 + (c.toNat - 48)) 0)
    else none

/-- Surrounding-whitespace stripping, as `int()` tolerates. -/
def stripWs (cs : List Char) : List Char :=
  ((cs.dropWhile Char.isWhitespace).reverse.dropWhile Char.isWhitespace).reverse

def pyInt (s : String) : Option Int :=
  match stripWs s.toList with
  | '-' :: rest => (digitsToNat rest).map (fun n => -(n : Int))
  | '+' :: rest => (digitsToNat rest).map (fun n => (n : Int))
  | cs => (digitsToNat cs).map (fun n => (n : Int))

/-- `parse_pagination`: query parameters are `Option String` (absent
parameters default to `0` / `10`); a `ValueError` yields `none`, which the
views turn into HTTP 400. -/
def parse_pagination (offsetParam limitParam : Option String) :
    Option (Int × Int) :=
  let o? := match offsetParam with
    | none => some 0
    | some s => pyInt s
  let l? := match limitParam with
    | none => some 10
    | some s => pyInt s
  match o?, l? with
  | some o, some l => some (max o 0, max (min l 50) 1)
  | _, _ => none

/-- `friendship_since(current_user, other)`: earliest friendship between the
two users, in either direction. -/
def friendship_since (db : DB) (currentUser : Option Nat) (other : Nat) :
    Option Nat :=
  match currentUser with
  | none => none
  | some cu =>
    ((sortAscBy (fun f => f.createdAt)
        (db.friendships.filter (fun f =>
          decide ((f.user = cu ∧ f.friend = other) ∨
            (f.user = other ∧ f.friend = cu))))).head?).map
      (fun f => f.createdAt)

/-- `is_blocked(current_user, other)`: `str(other.id)` against the viewer's
JSON blocked-list. -/
def is_blocked (db : DB) (currentUser : Option Nat) (other : Nat) : Bool :=
  match currentUser with
  | none => false
  | some cu =>
    match findUser db cu with
    | none => false
    | some v => v.blocked.contains (PyAtom.astr (toString other))

/-! ## Serializers (`api/views.py`) -/

/-- `tuple(user.profile_gradient) if user.profile_gradient else None`. -/
def optGradient (g : List String) : Option (List String) :=
  if g = [] then none else some g

def defaultUserR (uid : Nat) : UserR :=
  { id := uid, email := "", username := "", firstName := "", lastName := "",
    visibility := "public", xp := 0, xpNeeded := 0, level := 1,
    school := none, gradYear := none, major := none, discord := none,
    instagram := none, github := none, linkedin := none, personal := none,
    bio := "", skills := [], interests := [], blocked := [],
    profileGradient := [], dateJoined := 0 }

/-- Row lookup behind a foreign key; FK integrity makes the default branch
unreachable on real stores. -/
def getUserR (db : DB) (uid : Nat) : UserR :=
  (findUser db uid).getD (defaultUserR uid)

def getTeamR (db : DB) (tid : Nat) : TeamR :=
  (findTeam db tid).getD { id := tid, name := "", createdAt := 0 }

structure MemberPayload where
  uuid : Nat
  friendsSince : Option Nat
  profileGradient : Option (List String)
  displayName : String
  username : String
  level : Nat
  isBlocked : Bool
deriving DecidableEq

/-- `serialize_team_members`.  `team.members.all()` follows the `User` model's
Meta ordering `["-date_joined"]`. -/
def serialize_team_members (db : DB) (tid : Nat) (currentUser : Option Nat)
    (excludeUser : Option Nat) : List MemberPayload :=
  let records := sortDescBy (fun v => v.dateJoined)
    (db.users.filter (fun v => (teamMembers db tid).contains v.id))
  let records := match excludeUser with
    | none => records
    | some ex => records.filter (fun v => v.id ≠ ex)
  records.map (fun m =>
    { uuid := m.id,
      friendsSince := friendship_since db currentUser m.id,
      profileGradient := optGradient m.profileGradient,
      displayName := if m.firstName ≠ "" then m.firstName else m.username,
      username := m.username,
      level := m.level,
      isBlocked := is_blocked db currentUser m.id })

structure TeamPayload where
  uuid : Nat
  name : String
  createdAt : Nat
  members : List MemberPayload
deriving DecidableEq

def serialize_team (db : DB) (t : TeamR) (currentUser : Option Nat)
    (excludeUser : Option Nat) : TeamPayload :=
  { uuid := t.id, name := t.name, createdAt := t.createdAt,
    members := serialize_team_members db t.id currentUser excludeUser }

/-- `HackathonTeam` Meta ordering `["placement", "created_at"]`, with SQL
`NULL`s first (sqlite) on the nullable `placement`. -/
def placementKey : Option Nat → Nat
  | none => 0
  | some p => p + 1

def hackathonTeamMetaSort (l : List HTeamR) : List HTeamR :=
  l.insertionSort (fun a b =>
    placementKey a.placement < placementKey b.placement ∨
      (placementKey a.placement = placementKey b.placement ∧
        a.createdAt ≤ b.createdAt))

/-- The `include_user_team` subquery of `serialize_hackathon`:
`HackathonTeam.objects.filter(hackathon=hackathon, team__members=current_user).first()`. -/
def userEntryFor (db : DB) (u : Nat) (hid : Nat) : Option HTeamR :=
  (hackathonTeamMetaSort (db.hackathonTeams.filter (fun e =>
    decide (e.hackathon = hid ∧ (teamMembers db e.team).contains u)))).head?

structure LeaderboardEntryPayload where
  placement : Option Nat
  uuid : Nat
  name : String
  createdAt : Nat
  members : List MemberPayload
deriving DecidableEq

/-- The embedded-leaderboard subquery of `serialize_hackathon`:
placed entries of the hackathon, `order_by("placement")[:10]`. -/
def embeddedLeaderboardEntries (db : DB) (hid : Nat) : List HTeamR :=
  sliceQs 0 10 (sortAscBy (fun e => e.placement.getD 0)
    (db.hackathonTeams.filter (fun e =>
      decide (e.hackathon = hid ∧ e.placement.isSome))))

def mkLeaderboardEntry (db : DB) (currentUser : Option Nat) (e : HTeamR) :
    LeaderboardEntryPayload :=
  let t := getTeamR db e.team
  { placement := e.placement, uuid := t.id, name := t.name,
    createdAt := t.createdAt,
    members := serialize_team_members db t.id currentUser none }

structure HackathonPayload where
  uuid : Nat
  name : String
  description : String
  startDate : Nat
  endDate : Nat
  participants : Nat
  team : Option TeamPayload
  placement : Option Nat
  leaderboard : Option (List LeaderboardEntryPayload)
deriving DecidableEq

/-- `serialize_hackathon`. -/
def serialize_hackathon (db : DB) (h : HackathonR) (currentUser : Option Nat)
    (includeUserTeam includeLeaderboard : Bool) : HackathonPayload :=
  let entry := match includeUserTeam, currentUser with
    | true, some u => userEntryFor db u h.id
    | _, _ => none
  let lb :=
    if includeLeaderboard then
      let entries := (embeddedLeaderboardEntries db h.id).map
        (mkLeaderboardEntry db currentUser)
      -- `payload["leaderboard"] = leaderboard or None`
      if entries = [] then none else some entries
    else none
  { uuid := h.id, name := h.name, description := h.description,
    startDate := h.startDate, endDate := h.endDate,
    participants := participantsCount db h.id,
    team := (match includeUserTeam, currentUser with
      | true, some u =>
        entry.map (fun e => serialize_team db (getTeamR db e.team) (some u) (some u))
      | _, _ => none),
    placement := entry.bind (fun e => e.placement),
    leaderboard := lb }

structure FriendPayload where
  uuid : Nat
  friendsSince : Nat
  profileGradient : Option (List String)
  displayName : String
  username : String
  level : Nat
  isBlocked : Bool
deriving DecidableEq

/-- `serialize_friend`.  The payload reflects the friend record after the
`ensure_user_defaults` call inside the serializer. -/
def serialize_friend (db : DB) (grad : List String) (f : FriendshipR)
    (currentUser : Nat) : FriendPayload :=
  let otherId := if f.user = currentUser then f.friend else f.user
  let o := ensure_user_defaults grad (getUserR db otherId)
  { uuid := otherId,
    friendsSince := f.createdAt,
    profileGradient := optGradient o.profileGradient,
    displayName := if o.firstName ≠ "" then o.firstName else o.username,
    username := o.username,
    level := o.level,
    isBlocked := is_blocked db (some currentUser) otherId }

structure UserCorePayload where
  uuid : Nat
  createdAt : Nat
  profileGradient : Option (List String)
  displayName : String
  username : String
  school : Option Nat
  gradYear : Option String
  level : Nat
  email : Option String
  xp : Nat
  xpNeeded : Nat
  isPublic : Bool
  bio : String
  skills : List Nat
  interests : List Nat
  friendsSince : Option Nat
  isBlocked : Bool
deriving DecidableEq

/-- `serialize_user_core` (skills/interests are carried as pk lists; the
source lists their names).  The payload reflects the record after the
`ensure_user_defaults` call. -/
def serialize_user_core (db : DB) (grad : List String) (uid : Nat)
    (currentUser : Option Nat) (includeEmail : Bool) : UserCorePayload :=
  let v := ensure_user_defaults grad (getUserR db uid)
  { uuid := v.id,
    createdAt := v.dateJoined,
    profileGradient := optGradient v.profileGradient,
    displayName :=
      if v.firstName ≠ "" then v.firstName
      else if v.username ≠ "" then v.username
      else (v.email.splitOn "@").headD "",
    username := v.username,
    school := v.school,
    gradYear := v.gradYear.map (fun y => toString y),
    level := v.level,
    email := if includeEmail then some v.email else none,
    xp := v.xp,
    xpNeeded := v.xpNeeded,
    isPublic := v.visibility = "public",
    bio := v.bio,
    skills := v.skills,
    interests := v.interests,
    friendsSince := friendship_since db currentUser uid,
    isBlocked := is_blocked db currentUser uid }

/-! ## History queries and the bootstrap payload (`api/views.py`) -/

structure PastHackathonPayload where
  uuid : Nat
  name : String
  description : String
  startDate : Nat
  endDate : Nat
  participants : Nat
  placement : Option Nat
deriving DecidableEq

def mkPastHackathonPayload (db : DB) (p : HTeamR × HackathonR) :
    PastHackathonPayload :=
  { uuid := p.2.id, name := p.2.name, description := p.2.description,
    startDate := p.2.startDate, endDate := p.2.endDate,
    participants := participantsCount db p.2.id, placement := p.1.placement }

/-- `past_hackathons_for_user` filter:
`team__members=user, hackathon__end_date__lt=now, placement__isnull=False`
(the join pairs each entry with its hackathon row). -/
def pastPairsForUser (db : DB) (u : Nat) (now : Nat) :
    List (HTeamR × HackathonR) :=
  db.hackathonTeams.filterMap (fun e =>
    match findHackathon db e.hackathon with
    | some h =>
      if (teamMembers db e.team).contains u ∧ h.endDate < now ∧
          e.placement.isSome then some (e, h) else none
    | none => none)

def past_hackathons_for_user (db : DB) (u : Nat) (now : Nat)
    (offset limit : Nat) : List PastHackathonPayload :=
  (sliceQs offset limit
      (sortDescBy (fun p => p.2.endDate) (pastPairsForUser db u now))).map
    (mkPastHackathonPayload db)

/-- `past_hackathons_for_team` filter:
`team=team, hackathon__end_date__lt=now, placement__isnull=False`. -/
def pastPairsForTeam (db : DB) (tid : Nat) (now : Nat) :
    List (HTeamR × HackathonR) :=
  db.hackathonTeams.filterMap (fun e =>
    match findHackathon db e.hackathon with
    | some h =>
      if e.team = tid ∧ h.endDate < now ∧ e.placement.isSome then
        some (e, h)
      else none
    | none => none)

def past_hackathons_for_team (db : DB) (tid : Nat) (now : Nat)
    (offset limit : Nat) : List PastHackathonPayload :=
  (sliceQs offset limit
      (sortDescBy (fun p => p.2.endDate) (pastPairsForTeam db tid now))).map
    (mkPastHackathonPayload db)

/-- `build_bootstrap_payload` upcoming-hackathons queryset:
`team__members=user, hackathon__end_date__gte=now`, joined with the
hackathon row, `order_by("hackathon__start_date")`. -/
def upcomingPairs (db : DB) (u : Nat) (now : Nat) :
    List (HTeamR × HackathonR) :=
  db.hackathonTeams.filterMap (fun e =>
    match findHackathon db e.hackathon with
    | some h =>
      if (teamMembers db e.team).contains u ∧ now ≤ h.endDate then
        some (e, h)
      else none
    | none => none)

def sortedUpcomingPairs (db : DB) (u : Nat) (now : Nat) :
    List (HTeamR × HackathonR) :=
  sortAscBy (fun p => p.2.startDate) (upcomingPairs db u now)

/-- The `hackathons` list of the bootstrap payload: the first five entries
by ascending hackathon start date, each serialized with
`include_user_team=True`. -/
def bootstrapHackathons (db : DB) (u : Nat) (now : Nat) :
    List HackathonPayload :=
  (sliceQs 0 5 (sortedUpcomingPairs db u now)).map
    (fun p => serialize_hackathon db p.2 (some u) true false)

/-- The friendships slice of the bootstrap payload:
`filter(Q(user=user) | Q(friend=user)).order_by("-created_at")[:5]`. -/
def bootstrapFriendships (db : DB) (u : Nat) : List FriendshipR :=
  sliceQs 0 5 (sortDescBy (fun f => f.createdAt)
    (db.friendships.filter (fun f => decide (f.user = u ∨ f.friend = u))))

/-- The `friends` list of the bootstrap payload. -/
def bootstrapFriends (db : DB) (grad : List String) (u : Nat) :
    List FriendPayload :=
  (bootstrapFriendships db u).map (fun f => serialize_friend db grad f u)

structure BootstrapPayload where
  user : UserCorePayload
  hackathons : List HackathonPayload
  friends : List FriendPayload
deriving DecidableEq

def build_bootstrap_payload (db : DB) (grad : List String) (u : Nat)
    (now : Nat) : BootstrapPayload :=
  { user := serialize_user_core db grad u none true,
    hackathons := bootstrapHackathons db u now,
    friends := bootstrapFriends db grad u }

/-! ## Store mutation performed while assembling the bootstrap payload

`build_bootstrap_payload` calls `ensure_user_defaults` once per serialized
friend (inside `serialize_friend`) and once for the requesting user (inside
`serialize_user_core`); each call may `save` that user row. -/

/-- The id of the non-viewer side of a friendship. -/
def friendOther (f : FriendshipR) (u : Nat) : Nat :=
  if f.user = u then f.friend else f.user

/-- The user rows `build_bootstrap_payload` passes to
`ensure_user_defaults`, in call order. -/
def bootstrapTargets (db : DB) (u : Nat) : List Nat :=
  (bootstrapFriendships db u).map (fun f => friendOther f u) ++ [u]

/-- One `user.save(update_fields=["profile_gradient", "xp_needed"])`. -/
def saveEnsured (grad : List String) (db : DB) (uid : Nat) : DB :=
  { db with users := db.users.map (fun v =>
      if v.id = uid then ensure_user_defaults grad v else v) }

/-- The store after `build_bootstrap_payload(user)` returns. -/
def bootstrapStore (db : DB) (grad : List String) (u : Nat) : DB :=
  (bootstrapTargets db u).foldl (saveEnsured grad) db

/-! ## Endpoint handlers (`api/views.py`) -/

/-- `name__icontains=query`: case-insensitive substring match. -/
def icontains (name query : String) : Bool :=
  infixOfList query.toLower.toList name.toLower.toList

/-- `HackathonSearchView.get` after pagination parsing: optional name
filter, `order_by("-participant_estimate")`, slice, serialization with the
user's team and the embedded leaderboard. -/
def hackathonSearchList (db : DB) (u : Nat) (query : String)
    (offset limit : Nat) : List HackathonPayload :=
  let qs := if query ≠ "" then
      db.hackathons.filter (fun h => icontains h.name query)
    else db.hackathons
  (sliceQs offset limit
      (sortDescBy (fun h => participantsCount db h.id) qs)).map
    (fun h => serialize_hackathon db h (some u) true true)

/-- `HackathonSearchView.get` including pagination parsing: HTTP status
paired with the body. -/
def hackathonSearchView (db : DB) (u : Nat) (query : String)
    (offsetParam limitParam : Option String) :
    Nat × Option (List HackathonPayload) :=
  match parse_pagination offsetParam limitParam with
  | none => (400, none)
  | some (o, l) => (200, some (hackathonSearchList db u query o.toNat l.toNat))

/-- `HackathonLeaderboardView.get` after pagination parsing:
`filter(hackathon_id=hackathon_id, placement__isnull=False)
.order_by("placement")[offset : offset + limit]`. -/
def leaderboardPage (db : DB) (u : Nat) (hid : Nat) (offset limit : Nat) :
    List LeaderboardEntryPayload :=
  (sliceQs offset limit (sortAscBy (fun e => e.placement.getD 0)
      (db.hackathonTeams.filter (fun e =>
        decide (e.hackathon = hid ∧ e.placement.isSome))))).map
    (mkLeaderboardEntry db (some u))

/-- Outcome of `SignupView.post`: either an HTTP response or an unhandled
exception escaping the handler. -/
inductive SignupOutcome where
  | crash
  | response (status : Nat)
deriving DecidableEq

/-- `SignupView.post`.  The body values are modelled as present-or-absent
strings.  Note the source computes
`username = request.data.get("username") or email.split("@")[0]`
before checking `if not email`; when both `username` and `email` are
missing, `email.split` is `None.split` and raises `AttributeError`. -/
def signup_post (db : DB) (email username password : Option String) :
    SignupOutcome :=
  let usernameGiven := match username with
    | some s => if s ≠ "" then some s else none
    | none => none
  let emailFalsy := email = none ∨ email = some ""
  let passwordFalsy := password = none ∨ password = some ""
  match usernameGiven, email with
  | none, none => .crash
  | _, _ =>
    if emailFalsy ∨ passwordFalsy then .response 400
    else if db.users.any (fun v => some v.email = email) then .response 400
    else .response 201

/-! ## Inbound validation (`accounts/serializers.py`) -/

inductive Method where
  | POST
  | PATCH
deriving DecidableEq

/-- The inbound payload of `CustomUserSerializer`; `none` is a field missing
from the request body (`serializers.empty`). -/
structure InData where
  email : Option PyVal := none
  username : Option PyVal := none
  visibility : Option PyVal := none
  firstName : Option PyVal := none
  lastName : Option PyVal := none
  password : Option PyVal := none
  xp : Option PyVal := none
  level : Option PyVal := none
  school : Option PyVal := none
  gradYear : Option PyVal := none
  major : Option PyVal := none
  discord : Option PyVal := none
  instagram : Option PyVal := none
  github : Option PyVal := none
  linkedin : Option PyVal := none
  bio : Option PyVal := none
  skills : Option PyVal := none
  interests : Option PyVal := none
  blocked : Option PyVal := none
  personal : Option PyVal := none
  xpNeeded : Option PyVal := none
  profileGradient : Option PyVal := none
deriving DecidableEq

/-- Python `int(x)` on a payload value; `None`/lists raise
`TypeError`/`ValueError`, which every caller catches. -/
def pyIntOfVal : PyVal → Option Int
  | .pint n => some n
  | .pstr s => pyInt s
  | _ => none

def pyIntOfAtom : PyAtom → Option Int
  | .aint n => some n
  | .astr s => pyInt s
  | .anone => none

/-- Modelled from the spec: `django.core.validators.URLValidator` is library
code not in this repository; it is abstracted to a scheme check.  No claim
depends on which strings count as valid URLs. -/
def isValidUrl (s : String) : Bool :=
  (strStartsWith s "http://" || strStartsWith s "https://") && s.length > 8

def emailErrs (v : Option PyVal) : List (String × String) :=
  match v with
  | none => []
  | some (.pstr s) =>
    if strEndsWith s ".edu" then []
    else [("email", "Must be a valid .edu email")]
  | some _ => [("email", "Must be a string.")]

def passwordErrs (v : Option PyVal) : List (String × String) :=
  match v with
  | none => []
  | some (.pstr s) =>
    if s.length < 6 then
      [("password", "Password must be at least 6 characters.")]
    else []
  | some _ => [("password", "Password must be at least 6 characters.")]

def visibilityErrs (v : Option PyVal) : List (String × String) :=
  match v with
  | none => []
  | some w =>
    if w = .pstr "public" ∨ w = .pstr "private" then []
    else [("visibility", "Must be 'public' or 'private'")]

/-- `parse_int(name, value, minv, maxv)` error contributions. -/
def parseIntErrs (name : String) (v : Option PyVal) (minv maxv : Option Int) :
    List (String × String) :=
  match v with
  | none => []
  | some w =>
    match pyIntOfVal w with
    | none => [(name, "Must be an integer.")]
    | some iv =>
      (match minv with
        | some mn => if iv < mn then [(name, "Must be >= " ++ toString mn)] else []
        | none => []) ++
      (match maxv with
        | some mx => if iv > mx then [(name, "Must be <= " ++ toString mx)] else []
        | none => [])

/-- `validate_fk(name, model, pk)` error contributions. -/
def fkErrs (name modelName : String) (pks : List Nat) (v : Option PyVal) :
    List (String × String) :=
  match v with
  | none => []
  | some w =>
    match pyIntOfVal w with
    | none => [(name, "Must be an integer ID.")]
    | some pk =>
      if pks.any (fun k => (k : Int) = pk) then []
      else [(name, modelName ++ " does not exist.")]

/-- `validate_url(name, value)` error contributions (a non-string,
non-`None` value is reported as an invalid URL; CPython would instead let a
`TypeError` escape, a corner no claim touches). -/
def urlErrs (name : String) (v : Option PyVal) : List (String × String) :=
  match v with
  | none => []
  | some .pnone => []
  | some (.pstr s) =>
    if s = "" then []
    else if isValidUrl s then [] else [(name, "Enter a valid URL.")]
  | some _ => [(name, "Enter a valid URL.")]

/-- One pk probe of `validate_m2m`:
`model.objects.filter(pk=pk).exists()`.  An integer or integer-parsable
string is looked up; `None` becomes an `isnull` lookup matching nothing;
any other value makes the integer pk field's coercion raise a `ValueError`
that nothing catches — `.error ()` is that crash. -/
def m2mElemExists (pks : List Nat) (x : PyAtom) : Except Unit Bool :=
  match x with
  | .aint n => .ok (pks.any (fun k => (k : Int) = n))
  | .astr s =>
    match pyInt s with
    | some n => .ok (pks.any (fun k => (k : Int) = n))
    | none => .error ()
  | .anone => .ok false

/-- `validate_m2m(name, value, model)`: `.ok` carries the collected error
contribution (the source message for bad ids interpolates the offending
list); `.error ()` is the uncaught `ValueError` aborting the whole request
at the first non-coercible pk. -/
def m2mErrs (name : String) (pks : List Nat) (v : Option PyVal) :
    Except Unit (List (String × String)) :=
  match v with
  | none => .ok []
  | some (.plist xs) =>
    match xs.mapM (m2mElemExists pks) with
    | .error _ => .error ()
    | .ok founds =>
      if founds.any (fun found => !found) then .ok [(name, "Invalid IDs: ")]
      else .ok []
  | some _ => .ok [(name, "Must be a list of IDs.")]

def blockedErrs (v : Option PyVal) : List (String × String) :=
  match v with
  | none => []
  | some (.plist _) => []
  | some _ => [("blocked", "Must be a list.")]

def gradientErrs (v : Option PyVal) : List (String × String) :=
  match v with
  | none => []
  | some .pnone => []
  | some (.plist xs) =>
    if xs.length = 2 then [] else [("profile_gradient", "Must be two hex strings.")]
  | some _ => [("profile_gradient", "Must be two hex strings.")]

/-- The per-field error contributions of `to_internal_value`, in source
order; the two m2m contributions (the fallible ones) are passed in. -/
def errGroups (db : DB) (d : InData) (sk ints : List (String × String)) :
    List (List (String × String)) :=
  [emailErrs d.email, passwordErrs d.password, visibilityErrs d.visibility,
   parseIntErrs "xp" d.xp (some 0) none,
   parseIntErrs "level" d.level (some 0) (some 500),
   parseIntErrs "grad_year" d.gradYear (some 2015) (some 2080),
   fkErrs "school" "School" db.schools d.school,
   fkErrs "major" "Major" db.majors d.major,
   urlErrs "discord" d.discord, urlErrs "instagram" d.instagram,
   urlErrs "github" d.github, urlErrs "linkedin" d.linkedin,
   urlErrs "personal" d.personal, sk, ints,
   blockedErrs d.blocked, gradientErrs d.profileGradient]

/-- The `errors` mapping accumulated by `to_internal_value`; `.error ()` is
the uncaught `ValueError` from a non-coercible m2m pk, which aborts the
request mid-collection and loses all errors gathered so far. -/
def collectedErrs (db : DB) (d : InData) :
    Except Unit (List (String × String)) :=
  match m2mErrs "skills" db.skills d.skills,
      m2mErrs "interests" db.interests d.interests with
  | .ok sk, .ok ints => .ok ((errGroups db d sk ints).flatten)
  | _, _ => .error ()

/-- The `get_field(..., required=True)` checks: on POST the FIRST missing
required field (in source order: email, username, visibility, password)
raises a single-field `ValidationError` immediately; on PATCH none fires. -/
def requiredErr (m : Method) (d : InData) :
    Option (List (String × String)) :=
  match m with
  | .PATCH => none
  | .POST =>
    if d.email = none then some [("email", "This field is required")]
    else if d.username = none then some [("username", "This field is required")]
    else if d.visibility = none then
      some [("visibility", "This field is required")]
    else if d.password = none then some [("password", "This field is required")]
    else none

/-- Outcome of running the serializer validation: a `ValidationError`
carrying the field-to-message mapping (HTTP 400), success, or an unhandled
exception escaping the request (HTTP 500). -/
inductive ValidationResult where
  | crash
  | invalid (es : List (String × String))
  | valid
deriving DecidableEq

/-- `CustomUserSerializer.to_internal_value`: the required checks run before
the collected field validation; a non-coercible m2m pk crashes the
request. -/
def to_internal_value (db : DB) (m : Method) (d : InData) :
    ValidationResult :=
  match requiredErr m d with
  | some e => .invalid e
  | none =>
    match collectedErrs db d with
    | .error _ => .crash
    | .ok errs => if errs = [] then .valid else .invalid errs

/-- `CustomUserSerializer.update` applied to one user row (the PATCH-safe
`setattr` loop plus the school/major/gradient/password special cases).
Coercions follow the validated values built by `to_internal_value`. -/
def updateUserRow (d : InData) (v : UserR) : UserR :=
  let asStr := fun (w : Option PyVal) (old : String) =>
    match w with
    | some (.pstr s) => s
    | _ => old
  let asNat := fun (w : Option PyVal) (old : Nat) =>
    match w with
    | some x => match pyIntOfVal x with
      | some n => n.toNat
      | none => old
    | none => old
  { v with
    email := asStr d.email v.email,
    username := asStr d.username v.username,
    firstName := asStr d.firstName v.firstName,
    lastName := asStr d.lastName v.lastName,
    visibility := asStr d.visibility v.visibility,
    xp := asNat d.xp v.xp,
    xpNeeded := asNat d.xpNeeded v.xpNeeded,
    level := asNat d.level v.level,
    gradYear := (match d.gradYear with
      | some x => (pyIntOfVal x).map Int.toNat
      | none => v.gradYear),
    bio := asStr d.bio v.bio,
    -- `instance.school = School.objects.get(pk=school_id) if school_id else None`
    school := (match d.school with
      | some x => (pyIntOfVal x).bind (fun pk => if pk ≠ 0 then some pk.toNat else none)
      | none => v.school),
    major := (match d.major with
      | some x => (pyIntOfVal x).bind (fun pk => if pk ≠ 0 then some pk.toNat else none)
      | none => v.major),
    discord := (match d.discord with
      | some (.pstr s) => some s
      | some .pnone => none
      | _ => v.discord),
    instagram := (match d.instagram with
      | some (.pstr s) => some s
      | some .pnone => none
      | _ => v.instagram),
    github := (match d.github with
      | some (.pstr s) => some s
      | some .pnone => none
      | _ => v.github),
    linkedin := (match d.linkedin with
      | some (.pstr s) => some s
      | some .pnone => none
      | _ => v.linkedin),
    personal := (match d.personal with
      | some (.pstr s) => some s
      | some .pnone => none
      | _ => v.personal),
    skills := (match d.skills with
      | some (.plist xs) => xs.filterMap (fun x => (pyIntOfAtom x).map Int.toNat)
      | _ => v.skills),
    interests := (match d.interests with
      | some (.plist xs) => xs.filterMap (fun x => (pyIntOfAtom x).map Int.toNat)
      | _ => v.interests),
    blocked := (match d.blocked with
      | some (.plist xs) => xs
      | _ => v.blocked),
    -- `profile_gradient = [str(part) for part in profile_gradient]`
    profileGradient := (match d.profileGradient with
      | some (.plist xs) => xs.map PyAtom.toStr
      | _ => v.profileGradient) }

/-- `MeView.patch`: validate, then save.  A validation failure answers 400,
an unhandled exception kills the request (500); either way the save is
never reached and the store is untouched. -/
def me_patch (db : DB) (u : Nat) (d : InData) : Nat × DB :=
  match to_internal_value db .PATCH d with
  | .crash => (500, db)
  | .invalid _ => (400, db)
  | .valid =>
    (200, { db with users := db.users.map (fun v =>
      if v.id = u then updateUserRow d v else v) })

/-! ## Concrete example stores used as test inputs -/

def dbEmpty : DB :=
  { users := [], friendships := [], teams := [], memberships := [],
    hackathons := [], hackathonTeams := [],
    schools := [], majors := [], skills := [], interests := [] }

/-- A store whose hackathon 1 has two teams sharing placement 1. -/
def dbTie : DB :=
  { dbEmpty with
    teams := [⟨1, "Alpha", 0⟩, ⟨2, "Beta", 0⟩],
    hackathons := [⟨1, "Tied Hack", "d", 0, 10⟩],
    hackathonTeams := [⟨1, 1, some 1, 0⟩, ⟨1, 2, some 1, 1⟩] }

/-- A store where user 0's team is entered in six upcoming hackathons whose
end order is the reverse of their start order. -/
def dbSix : DB :=
  { dbEmpty with
    users := [defaultUserR 0],
    teams := [⟨1, "Alpha", 0⟩],
    memberships := [⟨0, 1, 0⟩],
    hackathons :=
      [⟨1, "H1", "", 1, 99⟩, ⟨2, "H2", "", 2, 98⟩, ⟨3, "H3", "", 3, 97⟩,
       ⟨4, "H4", "", 4, 96⟩, ⟨5, "H5", "", 5, 95⟩, ⟨6, "H6", "", 6, 94⟩],
    hackathonTeams :=
      [⟨1, 1, none, 1⟩, ⟨2, 1, none, 2⟩, ⟨3, 1, none, 3⟩,
       ⟨4, 1, none, 4⟩, ⟨5, 1, none, 5⟩, ⟨6, 1, none, 6⟩] }

/-- A store where user 0 has two friendships, created at times 10 and 20. -/
def dbTwoFriends : DB :=
  { dbEmpty with
    users := [defaultUserR 0,
      { defaultUserR 1 with
        username := "one", profileGradient := ["a", "b"], xpNeeded := 100 },
      { defaultUserR 2 with
        username := "two", profileGradient := ["c", "d"], xpNeeded := 100 }],
    friendships := [⟨0, 1, 10⟩, ⟨2, 0, 20⟩] }

/-- A store where the requesting user 0 already has its defaults but friend 1
still has an empty profile gradient. -/
def dbFriendNoGradient : DB :=
  { dbEmpty with
    users := [{ defaultUserR 0 with
        profileGradient := ["a", "b"], xpNeeded := 100 },
      { defaultUserR 1 with
        profileGradient := [], xpNeeded := 100 }],
    friendships := [⟨0, 1, 10⟩] }

def gradFresh : List String := ["ffffff", "000000"]

/-- A store with one searchable hackathon with two placed teams (mirrors the
repository's own `HackathonViewsTests` fixture). -/
def dbSearch : DB :=
  { dbEmpty with
    users := [defaultUserR 0,
      { defaultUserR 1 with
        username := "beta", dateJoined := 1 }],
    teams := [⟨1, "Alpha", 0⟩, ⟨2, "Beta", 0⟩],
    memberships := [⟨0, 1, 0⟩, ⟨1, 2, 0⟩],
    hackathons := [⟨1, "Searchable Hack", "desc", 50, 100⟩],
    hackathonTeams := [⟨1, 1, some 1, 0⟩, ⟨1, 2, some 2, 1⟩] }

/-- A store where user 0 has six friendships, created at times 10..60. -/
def dbSixFriends : DB :=
  { dbEmpty with
    users := [defaultUserR 0, defaultUserR 1, defaultUserR 2, defaultUserR 3,
      defaultUserR 4, defaultUserR 5, defaultUserR 6],
    friendships := [⟨0, 1, 10⟩, ⟨0, 2, 20⟩, ⟨0, 3, 30⟩, ⟨0, 4, 40⟩,
      ⟨0, 5, 50⟩, ⟨0, 6, 60⟩] }

/-- A POST signup-shaped payload missing both required fields `email` and
`username` (everything else valid). -/
def dPostMissing : InData :=
  { visibility := some (.pstr "public"), password := some (.pstr "longenough") }

/-- A PATCH payload with two invalid fields: a non-`.edu` email and a
five-character password. -/
def dPatchBad : InData :=
  { email := some (.pstr "x@y.com"), password := some (.pstr "ab") }

/-- The error mapping the PATCH validation of `dPatchBad` collects. -/
def dPatchBadErrs : List (String × String) :=
  [("email", "Must be a valid .edu email"),
   ("password", "Password must be at least 6 characters.")]

/-- A PATCH payload whose `skills` list holds a non-integer id: the pk
coercion inside `Skill.objects.filter(pk="abc")` raises an uncaught
`ValueError`, so the invalid email alongside it is never reported. -/
def dPatchCrash : InData :=
  { email := some (.pstr "x@y.com"), skills := some (.plist [.astr "abc"]) }

/-! ## Supporting lemmas about the query pipelines -/

theorem mem_pastPairsForUser {db : DB} {u now : Nat} {p : HTeamR × HackathonR}
    (hp : p ∈ pastPairsForUser db u now) :
    p.1 ∈ db.hackathonTeams ∧ (teamMembers db p.1.team).contains u ∧
      p.2.endDate < now ∧ p.1.placement.isSome := by
  simp only [pastPairsForUser, List.mem_filterMap] at hp
  obtain ⟨e, he, hmatch⟩ := hp
  split at hmatch
  case h_2 => exact absurd hmatch (by simp)
  case h_1 h heq =>
    split at hmatch
    case isFalse => exact absurd hmatch (by simp)
    case isTrue hc =>
      obtain ⟨rfl, rfl⟩ : e = p.1 ∧ h = p.2 := by
        cases hmatch; exact ⟨rfl, rfl⟩
      exact ⟨he, hc.1, hc.2.1, hc.2.2⟩

theorem mem_pastPairsForTeam {db : DB} {tid now : Nat} {p : HTeamR × HackathonR}
    (hp : p ∈ pastPairsForTeam db tid now) :
    p.1 ∈ db.hackathonTeams ∧ p.1.team = tid ∧
      p.2.endDate < now ∧ p.1.placement.isSome := by
  simp only [pastPairsForTeam, List.mem_filterMap] at hp
  obtain ⟨e, he, hmatch⟩ := hp
  split at hmatch
  case h_2 => exact absurd hmatch (by simp)
  case h_1 h heq =>
    split at hmatch
    case isFalse => exact absurd hmatch (by simp)
    case isTrue hc =>
      obtain ⟨rfl, rfl⟩ : e = p.1 ∧ h = p.2 := by
        cases hmatch; exact ⟨rfl, rfl⟩
      exact ⟨he, hc.1, hc.2.1, hc.2.2⟩

theorem mem_upcomingPairs {db : DB} {u now : Nat} {p : HTeamR × HackathonR}
    (hp : p ∈ upcomingPairs db u now) :
    p.1 ∈ db.hackathonTeams ∧ (teamMembers db p.1.team).contains u ∧
      now ≤ p.2.endDate ∧ findHackathon db p.1.hackathon = some p.2 := by
  simp only [upcomingPairs, List.mem_filterMap] at hp
  obtain ⟨e, he, hmatch⟩ := hp
  split at hmatch
  case h_2 => exact absurd hmatch (by simp)
  case h_1 h heq =>
    split at hmatch
    case isFalse => exact absurd hmatch (by simp)
    case isTrue hc =>
      obtain ⟨rfl, rfl⟩ : e = p.1 ∧ h = p.2 := by
        cases hmatch; exact ⟨rfl, rfl⟩
      exact ⟨he, hc.1, hc.2, heq⟩

/-! ## Claim theorems -/

/-- C6: the past-hackathon history functions behind
`GET /user/lookup/{id}/history` and `GET /team/{id}/history` return only
hackathons whose end date is strictly before now, ordered most-recent-first
(descending end date). -/
theorem c6_history_only_past_desc (db : DB) (u tid now offset limit : Nat) :
    ((∀ p ∈ past_hackathons_for_user db u now offset limit, p.endDate < now) ∧
      (past_hackathons_for_user db u now offset limit).Pairwise
        (fun a b => b.endDate ≤ a.endDate)) ∧
    ((∀ p ∈ past_hackathons_for_team db tid now offset limit, p.endDate < now) ∧
      (past_hackathons_for_team db tid now offset limit).Pairwise
        (fun a b => b.endDate ≤ a.endDate)) := by
  refine ⟨⟨?_, ?_⟩, ⟨?_, ?_⟩⟩
  · intro p hp
    simp only [past_hackathons_for_user, List.mem_map] at hp
    obtain ⟨q, hq, rfl⟩ := hp
    have hq' := mem_sortDescBy.mp (mem_of_mem_sliceQs hq)
    exact (mem_pastPairsForUser hq').2.2.1
  · rw [past_hackathons_for_user, List.pairwise_map]
    exact (pairwise_sliceQs
      (sortDescBy_pairwise (fun p => p.2.endDate) (pastPairsForUser db u now))
      offset limit).imp (fun h => h)
  · intro p hp
    simp only [past_hackathons_for_team, List.mem_map] at hp
    obtain ⟨q, hq, rfl⟩ := hp
    have hq' := mem_sortDescBy.mp (mem_of_mem_sliceQs hq)
    exact (mem_pastPairsForTeam hq').2.2.1
  · rw [past_hackathons_for_team, List.pairwise_map]
    exact (pairwise_sliceQs
      (sortDescBy_pairwise (fun p => p.2.endDate) (pastPairsForTeam db tid now))
      offset limit).imp (fun h => h)

/-- C6 witness: at `now = 200` the concrete store's finished hackathon
(end date 100) appears in user 0's history and indeed ended before now. -/
theorem c6_history_only_past_desc_witness :
    (mkPastHackathonPayload dbSearch
      (⟨1, 1, some 1, 0⟩, ⟨1, "Searchable Hack", "desc", 50, 100⟩)).endDate
      < 200 :=
  (c6_history_only_past_desc dbSearch 0 1 200 0 5).1.1 _ (by decide)

/-- C5 counterexample: in a store where two teams of hackathon 1 share
placement 1, the returned leaderboard page is `[1, 1]`, which is not
strictly ascending; the claim's "strictly ordered" fails as stated. -/
theorem c5_counterexample :
    (leaderboardPage dbTie 0 1 0 10).map (fun e => e.placement) =
        [some 1, some 1] ∧
      ¬ (leaderboardPage dbTie 0 1 0 10).Pairwise
          (fun a b => a.placement.getD 0 < b.placement.getD 0) := by
  constructor
  · rfl
  · decide

/-- C5 (amended): every entry of a leaderboard page has a non-null
placement and the page is ordered by ascending placement — non-strictly in
general, and strictly whenever the page's placements are pairwise
distinct. -/
theorem c5_leaderboard_filtered_sorted (db : DB) (u hid offset limit : Nat) :
    (∀ e ∈ leaderboardPage db u hid offset limit, e.placement.isSome) ∧
    (leaderboardPage db u hid offset limit).Pairwise
      (fun a b => a.placement.getD 0 ≤ b.placement.getD 0) ∧
    (((leaderboardPage db u hid offset limit).map
        (fun e => e.placement)).Nodup →
      (leaderboardPage db u hid offset limit).Pairwise
        (fun a b => a.placement.getD 0 < b.placement.getD 0)) := by
  have hmem : ∀ e ∈ leaderboardPage db u hid offset limit, e.placement.isSome := by
    intro e he
    simp only [leaderboardPage, List.mem_map] at he
    obtain ⟨q, hq, rfl⟩ := he
    have hq' := mem_sortAscBy.mp (mem_of_mem_sliceQs hq)
    have := List.of_mem_filter hq'
    simp only [decide_eq_true_eq] at this
    simpa [mkLeaderboardEntry] using this.2
  have hle : (leaderboardPage db u hid offset limit).Pairwise
      (fun a b => a.placement.getD 0 ≤ b.placement.getD 0) := by
    rw [leaderboardPage, List.pairwise_map]
    exact (pairwise_sliceQs
      (sortAscBy_pairwise (fun e : HTeamR => e.placement.getD 0) _)
      offset limit).imp (fun h => h)
  refine ⟨hmem, hle, fun hnd => ?_⟩
  have hne : (leaderboardPage db u hid offset limit).Pairwise
      (fun a b => a.placement ≠ b.placement) := List.pairwise_map.mp hnd
  refine (hle.and hne).imp_of_mem ?_
  intro a b ha hb hab
  obtain ⟨x, hx⟩ := Option.isSome_iff_exists.mp (hmem a ha)
  obtain ⟨y, hy⟩ := Option.isSome_iff_exists.mp (hmem b hb)
  have h1 := hab.1
  have h2 := hab.2
  rw [hx, hy] at h1 h2 ⊢
  simp only [Option.getD_some] at h1 ⊢
  exact lt_of_le_of_ne h1 (fun hxy => h2 (by rw [hxy]))

/-- C5 witness: on the two-placed-team store, the amended theorem applies;
the page placements are distinct, so the page is strictly ascending. -/
theorem c5_leaderboard_filtered_sorted_witness :
    (∀ e ∈ leaderboardPage dbSearch 0 1 0 10, e.placement.isSome) ∧
    (leaderboardPage dbSearch 0 1 0 10).Pairwise
      (fun a b => a.placement.getD 0 < b.placement.getD 0) := by
  have h := c5_leaderboard_filtered_sorted dbSearch 0 1 0 10
  exact ⟨h.1, h.2.2 (by decide)⟩

theorem mem_embeddedLeaderboardEntries {db : DB} {hid : Nat} {e : HTeamR}
    (he : e ∈ embeddedLeaderboardEntries db hid) :
    e.hackathon = hid ∧ e.placement.isSome := by
  have he' := mem_sortAscBy.mp (mem_of_mem_sliceQs he)
  have := List.of_mem_filter he'
  simpa only [decide_eq_true_eq] using this

/-- C10: a hackathon serialized with an embedded leaderboard (as every
hackathon-search result is) carries at most 10 entries ordered by ascending
placement, never an empty list, and carries `null` when the hackathon has no
entry with a non-null placement. -/
theorem c10_embedded_leaderboard (db : DB) (h : HackathonR) (u : Nat) :
    (∀ lb, (serialize_hackathon db h (some u) true true).leaderboard = some lb →
      lb ≠ [] ∧ lb.length ≤ 10 ∧
      lb.Pairwise (fun a b => a.placement.getD 0 ≤ b.placement.getD 0) ∧
      ∀ e ∈ lb, e.placement.isSome) ∧
    (db.hackathonTeams.filter
        (fun e => decide (e.hackathon = h.id ∧ e.placement.isSome)) = [] →
      (serialize_hackathon db h (some u) true true).leaderboard = none) := by
  have hlb : (serialize_hackathon db h (some u) true true).leaderboard =
      (if ((embeddedLeaderboardEntries db h.id).map
            (mkLeaderboardEntry db (some u))) = [] then none
        else some ((embeddedLeaderboardEntries db h.id).map
            (mkLeaderboardEntry db (some u)))) := rfl
  constructor
  · intro lb hsome
    rw [hlb] at hsome
    by_cases hnil : ((embeddedLeaderboardEntries db h.id).map
        (mkLeaderboardEntry db (some u))) = []
    · rw [if_pos hnil] at hsome; cases hsome
    · rw [if_neg hnil] at hsome
      obtain rfl : _ = lb := Option.some.inj hsome
      refine ⟨hnil, ?_, ?_, ?_⟩
      · rw [List.length_map]
        exact length_sliceQs_le 0 10 _
      · rw [List.pairwise_map]
        exact (pairwise_sliceQs
          (sortAscBy_pairwise (fun e : HTeamR => e.placement.getD 0) _)
          0 10).imp (fun hr => hr)
      · intro e he
        simp only [List.mem_map] at he
        obtain ⟨q, hq, rfl⟩ := he
        simpa [mkLeaderboardEntry] using (mem_embeddedLeaderboardEntries hq).2
  · intro hfilter
    rw [hlb]
    have hemp : embeddedLeaderboardEntries db h.id = [] := by
      rw [embeddedLeaderboardEntries, hfilter]; rfl
    rw [hemp]
    rfl

/-- C10 witness: on the searchable-hackathon store the embedded leaderboard
is a non-empty sorted list of at most 10 placed entries, and on a store with
no placed entries the embedded leaderboard is `null`. -/
theorem c10_embedded_leaderboard_witness :
    (((embeddedLeaderboardEntries dbSearch 1).map
        (mkLeaderboardEntry dbSearch (some 0))) ≠ [] ∧
      ((embeddedLeaderboardEntries dbSearch 1).map
        (mkLeaderboardEntry dbSearch (some 0))).length ≤ 10 ∧
      ((embeddedLeaderboardEntries dbSearch 1).map
        (mkLeaderboardEntry dbSearch (some 0))).Pairwise
        (fun a b => a.placement.getD 0 ≤ b.placement.getD 0) ∧
      ∀ e ∈ ((embeddedLeaderboardEntries dbSearch 1).map
        (mkLeaderboardEntry dbSearch (some 0))), e.placement.isSome) ∧
    (serialize_hackathon dbSix ⟨1, "H1", "", 1, 99⟩ (some 0) true
        true).leaderboard = none :=
  ⟨(c10_embedded_leaderboard dbSearch ⟨1, "Searchable Hack", "desc", 50, 100⟩
      0).1 _ rfl,
    (c10_embedded_leaderboard dbSix ⟨1, "H1", "", 1, 99⟩ 0).2 (by decide)⟩

/-- C3: for every paginated request, a limit above 50 is clamped to 50, a
limit below 1 is clamped to 1, a negative offset is clamped to 0, and a
request whose offset or limit does not parse as an integer is answered with
HTTP 400. -/
theorem c3_pagination_clamps (oS lS : String) (o l : Int) (db : DB)
    (u : Nat) (query : String) :
    (pyInt oS = some o → pyInt lS = some l →
      parse_pagination (some oS) (some lS) =
          some (max o 0, max (min l 50) 1) ∧
        (50 < l → max (min l 50) 1 = 50) ∧
        (l < 1 → max (min l 50) 1 = 1) ∧
        (o < 0 → max o 0 = 0)) ∧
    ((pyInt oS = none ∨ pyInt lS = none) →
      (hackathonSearchView db u query (some oS) (some lS)).1 = 400) := by
  constructor
  · intro ho hl
    refine ⟨by simp [parse_pagination, ho, hl], ?_, ?_, ?_⟩
    · intro h50; omega
    · intro h1; omega
    · intro h0; omega
  · intro hbad
    have hparse : parse_pagination (some oS) (some lS) = none := by
      rcases hbad with ho | hl
      · cases hl' : pyInt lS <;> simp [parse_pagination, ho, hl']
      · cases ho' : pyInt oS <;> simp [parse_pagination, ho', hl]
    simp [hackathonSearchView, hparse]

/-- C3 witness: `offset=-3&limit=99` is clamped to `(0, 50)`, and the
non-integer `offset=abc` yields HTTP 400 from the search view. -/
theorem c3_pagination_clamps_witness :
    (pyInt "-3" = some (-3) ∧ pyInt "99" = some 99 ∧
      parse_pagination (some "-3") (some "99") = some (0, 50)) ∧
    (pyInt "abc" = none ∧
      (hackathonSearchView dbEmpty 0 "" (some "abc") (some "1")).1 = 400) := by
  refine ⟨⟨by decide, by decide, ?_⟩, ⟨by decide, ?_⟩⟩
  · exact (((c3_pagination_clamps "-3" "99" (-3) 99 dbEmpty 0 "").1
      (by decide) (by decide)).1).trans (by decide)
  · exact (c3_pagination_clamps "abc" "1" 0 0 dbEmpty 0 "").2
      (Or.inl (by decide))

/-- C4: with a non-empty query, every hackathon returned by the search view
has a name containing the query case-insensitively, and the page is ordered
by descending distinct-participant count. -/
theorem c4_search_filter_order (db : DB) (u : Nat) (query : String)
    (offset limit : Nat) (hq : query ≠ "") :
    (∀ p ∈ hackathonSearchList db u query offset limit,
      icontains p.name query = true) ∧
    (hackathonSearchList db u query offset limit).Pairwise
      (fun a b => b.participants ≤ a.participants) := by
  constructor
  · intro p hp
    simp only [hackathonSearchList] at hp
    rw [if_pos hq] at hp
    simp only [List.mem_map] at hp
    obtain ⟨h, hh, rfl⟩ := hp
    have hh' := mem_sortDescBy.mp (mem_of_mem_sliceQs hh)
    have hc := (List.mem_filter.mp hh').2
    exact hc
  · simp only [hackathonSearchList]
    rw [List.pairwise_map]
    exact (pairwise_sliceQs
      (sortDescBy_pairwise (fun h : HackathonR => participantsCount db h.id) _)
      offset limit).imp (fun hr => hr)

/-- C4 witness: searching the concrete store for "search" returns pages
whose names all match and whose participant counts descend. -/
theorem c4_search_filter_order_witness :
    (∀ p ∈ hackathonSearchList dbSearch 0 "search" 0 10,
      icontains p.name "search" = true) ∧
    (hackathonSearchList dbSearch 0 "search" 0 10).Pairwise
      (fun a b => b.participants ≤ a.participants) :=
  c4_search_filter_order dbSearch 0 "search" 0 10 (by decide)

theorem sliceQs_zero_eq_take (n : Nat) (l : List α) :
    sliceQs 0 n l = l.take n := rfl

/-- C2 counterexample: with friendships created at times 10 and 20, the
bootstrap friends list is `[20, 10]` — the five most recent, but presented
newest-first, not oldest-first as the claim states. -/
theorem c2_counterexample :
    ((bootstrapFriends dbTwoFriends gradFresh 0).map
        (fun p => (p.uuid, p.friendsSince)) = [(2, 20), (1, 10)]) ∧
      ¬ (bootstrapFriends dbTwoFriends gradFresh 0).Pairwise
          (fun a b => a.friendsSince ≤ b.friendsSince) := by
  constructor
  · decide
  · decide

/-- C2 (amended): the bootstrap friends list has at most 5 entries, the
user's most recent friendships by creation time, presented newest-first
within the slice. -/
theorem c2_friends_recent_newest_first (db : DB) (grad : List String)
    (u : Nat) :
    (bootstrapFriends db grad u).length ≤ 5 ∧
    (bootstrapFriends db grad u).Pairwise
      (fun a b => b.friendsSince ≤ a.friendsSince) ∧
    (∀ p ∈ bootstrapFriends db grad u, ∃ f ∈ db.friendships,
      (f.user = u ∨ f.friend = u) ∧ p.friendsSince = f.createdAt ∧
        p.uuid = friendOther f u) ∧
    (∀ g ∈ db.friendships, (g.user = u ∨ g.friend = u) →
      g ∉ bootstrapFriendships db u →
      ∀ p ∈ bootstrapFriends db grad u, g.createdAt ≤ p.friendsSince) := by
  refine ⟨?_, ?_, ?_, ?_⟩
  · rw [bootstrapFriends, List.length_map]
    exact length_sliceQs_le 0 5 _
  · rw [bootstrapFriends, List.pairwise_map]
    exact (pairwise_sliceQs
      (sortDescBy_pairwise (fun f : FriendshipR => f.createdAt) _) 0 5).imp
      (fun hr => hr)
  · intro p hp
    simp only [bootstrapFriends, List.mem_map] at hp
    obtain ⟨f, hf, rfl⟩ := hp
    have hf' := mem_sortDescBy.mp (mem_of_mem_sliceQs hf)
    refine ⟨f, (List.mem_filter.mp hf').1, ?_, rfl, rfl⟩
    exact of_decide_eq_true (List.mem_filter.mp hf').2
  · intro g hg hgu hgout p hp
    simp only [bootstrapFriends, List.mem_map] at hp
    obtain ⟨f, hf, rfl⟩ := hp
    have hsorted := sortDescBy_pairwise (fun f : FriendshipR => f.createdAt)
      (db.friendships.filter (fun f => decide (f.user = u ∨ f.friend = u)))
    have hgmem : g ∈ sortDescBy (fun f : FriendshipR => f.createdAt)
        (db.friendships.filter (fun f => decide (f.user = u ∨ f.friend = u))) := by
      rw [mem_sortDescBy]
      exact List.mem_filter.mpr ⟨hg, decide_eq_true hgu⟩
    rw [bootstrapFriendships, sliceQs_zero_eq_take] at hgout
    rw [bootstrapFriendships, sliceQs_zero_eq_take] at hf
    exact pairwise_take_rel hsorted 5 hf hgmem hgout

/-- C2 witness: on the six-friendship store the slice keeps at most 5
entries and the excluded oldest friendship (time 10) is no newer than a
retained one (time 60). -/
theorem c2_friends_recent_newest_first_witness :
    (bootstrapFriends dbSixFriends gradFresh 0).length ≤ 5 ∧
    10 ≤ (serialize_friend dbSixFriends gradFresh ⟨0, 6, 60⟩ 0).friendsSince :=
  ⟨(c2_friends_recent_newest_first dbSixFriends gradFresh 0).1,
    (c2_friends_recent_newest_first dbSixFriends gradFresh 0).2.2.2
      ⟨0, 1, 10⟩ (by decide) (by decide) (by decide)
      (serialize_friend dbSixFriends gradFresh ⟨0, 6, 60⟩ 0) (by decide)⟩

/-- C1 counterexample: user 0's team is entered in six upcoming hackathons;
hackathon 6 ends soonest (94, earlier than every returned end date) yet the
payload selects hackathons 1–5 — the five soonest-STARTING, not the five
soonest-ending. -/
theorem c1_counterexample :
    ((bootstrapHackathons dbSix 0 0).map (fun p => p.uuid) =
        [1, 2, 3, 4, 5]) ∧
    ((bootstrapHackathons dbSix 0 0).map (fun p => p.endDate) =
        [99, 98, 97, 96, 95]) ∧
    ((upcomingPairs dbSix 0 0).map (fun q => q.2.id) =
        [1, 2, 3, 4, 5, 6]) ∧
    (findHackathon dbSix 6).map (fun h => h.endDate) = some 94 := by
  refine ⟨?_, ?_, ?_, ?_⟩ <;> decide

/-- C1 (amended): the bootstrap hackathons list has at most 5 entries,
consisting of the soonest-starting upcoming hackathons (end date not before
now) the user's teams are entered in, ordered by ascending start date, each
with the user's team and placement embedded via the user-team subquery. -/
theorem c1_bootstrap_hackathons (db : DB) (u now : Nat) :
    (bootstrapHackathons db u now).length ≤ 5 ∧
    (∀ p ∈ bootstrapHackathons db u now, now ≤ p.endDate) ∧
    (bootstrapHackathons db u now).Pairwise
      (fun a b => a.startDate ≤ b.startDate) ∧
    (∀ p ∈ bootstrapHackathons db u now, ∃ q ∈ upcomingPairs db u now,
      p = serialize_hackathon db q.2 (some u) true false ∧
        q.1 ∈ db.hackathonTeams ∧ (teamMembers db q.1.team).contains u) ∧
    (∀ q ∈ upcomingPairs db u now,
      q ∉ sliceQs 0 5 (sortedUpcomingPairs db u now) →
      ∀ p ∈ bootstrapHackathons db u now, p.startDate ≤ q.2.startDate) ∧
    (∀ p ∈ bootstrapHackathons db u now,
      p.team = (userEntryFor db u p.uuid).map (fun e =>
        serialize_team db (getTeamR db e.team) (some u) (some u)) ∧
      p.placement = (userEntryFor db u p.uuid).bind (fun e => e.placement)) := by
  refine ⟨?_, ?_, ?_, ?_, ?_, ?_⟩
  · rw [bootstrapHackathons, List.length_map]
    exact length_sliceQs_le 0 5 _
  · intro p hp
    simp only [bootstrapHackathons, List.mem_map] at hp
    obtain ⟨q, hq, rfl⟩ := hp
    have hq' := mem_sortAscBy.mp (mem_of_mem_sliceQs hq)
    exact (mem_upcomingPairs hq').2.2.1
  · rw [bootstrapHackathons, List.pairwise_map]
    exact (pairwise_sliceQs
      (sortAscBy_pairwise (fun q : HTeamR × HackathonR => q.2.startDate) _)
      0 5).imp (fun hr => hr)
  · intro p hp
    simp only [bootstrapHackathons, List.mem_map] at hp
    obtain ⟨q, hq, rfl⟩ := hp
    have hq' := mem_sortAscBy.mp (mem_of_mem_sliceQs hq)
    exact ⟨q, hq', rfl, (mem_upcomingPairs hq').1, (mem_upcomingPairs hq').2.1⟩
  · intro q hq hqout p hp
    simp only [bootstrapHackathons, List.mem_map] at hp
    obtain ⟨f, hf, rfl⟩ := hp
    have hsorted := sortAscBy_pairwise
      (fun q : HTeamR × HackathonR => q.2.startDate) (upcomingPairs db u now)
    have hqmem : q ∈ sortedUpcomingPairs db u now := by
      rw [sortedUpcomingPairs, mem_sortAscBy]; exact hq
    rw [sliceQs_zero_eq_take] at hqout
    rw [sliceQs_zero_eq_take] at hf
    exact pairwise_take_rel hsorted 5 hf hqmem hqout
  · intro p hp
    simp only [bootstrapHackathons, List.mem_map] at hp
    obtain ⟨q, hq, rfl⟩ := hp
    exact ⟨rfl, rfl⟩

/-- C1 witness: on the six-hackathon store hackathon 1's payload is
upcoming, and the excluded pair for hackathon 6 starts no earlier than any
returned entry. -/
theorem c1_bootstrap_hackathons_witness :
    (bootstrapHackathons dbSix 0 0).length ≤ 5 ∧
    (0 : Nat) ≤ (serialize_hackathon dbSix ⟨1, "H1", "", 1, 99⟩ (some 0) true
      false).endDate ∧
    (serialize_hackathon dbSix ⟨1, "H1", "", 1, 99⟩ (some 0) true
      false).startDate ≤ 6 :=
  ⟨(c1_bootstrap_hackathons dbSix 0 0).1,
    (c1_bootstrap_hackathons dbSix 0 0).2.1
      (serialize_hackathon dbSix ⟨1, "H1", "", 1, 99⟩ (some 0) true false)
      (by decide),
    (c1_bootstrap_hackathons dbSix 0 0).2.2.2.2.1
      (⟨6, 1, none, 6⟩, ⟨6, "H6", "", 6, 94⟩) (by decide) (by decide)
      (serialize_hackathon dbSix ⟨1, "H1", "", 1, 99⟩ (some 0) true false)
      (by decide)⟩

theorem refreshXpNeeded_id (v : UserR) : (refreshXpNeeded v).id = v.id := by
  unfold refreshXpNeeded; split_ifs <;> rfl

theorem refreshXpNeeded_xpNeeded (v : UserR) :
    (refreshXpNeeded v).xpNeeded = compute_xp_needed v.level v.xp := by
  unfold refreshXpNeeded
  split_ifs with h
  · rfl
  · exact of_not_not h

theorem ensure_user_defaults_id (grad : List String) (v : UserR) :
    (ensure_user_defaults grad v).id = v.id := by
  unfold ensure_user_defaults refreshXpNeeded
  split_ifs <;> rfl

theorem ensure_user_defaults_gradient (grad : List String) (v : UserR) :
    (ensure_user_defaults grad v).profileGradient =
      (if v.profileGradient = [] then grad else v.profileGradient) := by
  unfold ensure_user_defaults refreshXpNeeded
  split_ifs <;> rfl

theorem ensure_user_defaults_xpNeeded (grad : List String) (v : UserR) :
    (ensure_user_defaults grad v).xpNeeded =
      compute_xp_needed v.level v.xp := by
  unfold ensure_user_defaults
  split_ifs with h1
  · exact refreshXpNeeded_xpNeeded _
  · exact refreshXpNeeded_xpNeeded _

theorem ensure_user_defaults_frame (grad : List String) (v : UserR) :
    (ensure_user_defaults grad v).email = v.email ∧
    (ensure_user_defaults grad v).username = v.username ∧
    (ensure_user_defaults grad v).firstName = v.firstName ∧
    (ensure_user_defaults grad v).lastName = v.lastName ∧
    (ensure_user_defaults grad v).visibility = v.visibility ∧
    (ensure_user_defaults grad v).xp = v.xp ∧
    (ensure_user_defaults grad v).level = v.level ∧
    (ensure_user_defaults grad v).school = v.school ∧
    (ensure_user_defaults grad v).gradYear = v.gradYear ∧
    (ensure_user_defaults grad v).major = v.major ∧
    (ensure_user_defaults grad v).discord = v.discord ∧
    (ensure_user_defaults grad v).instagram = v.instagram ∧
    (ensure_user_defaults grad v).github = v.github ∧
    (ensure_user_defaults grad v).linkedin = v.linkedin ∧
    (ensure_user_defaults grad v).personal = v.personal ∧
    (ensure_user_defaults grad v).bio = v.bio ∧
    (ensure_user_defaults grad v).skills = v.skills ∧
    (ensure_user_defaults grad v).interests = v.interests ∧
    (ensure_user_defaults grad v).blocked = v.blocked ∧
    (ensure_user_defaults grad v).dateJoined = v.dateJoined := by
  unfold ensure_user_defaults refreshXpNeeded
  split_ifs <;>
    exact ⟨rfl, rfl, rfl, rfl, rfl, rfl, rfl, rfl, rfl, rfl, rfl, rfl, rfl,
      rfl, rfl, rfl, rfl, rfl, rfl, rfl⟩

theorem ensure_user_defaults_idem (grad : List String) (v : UserR) :
    ensure_user_defaults grad (ensure_user_defaults grad v) =
      ensure_user_defaults grad v := by
  unfold ensure_user_defaults refreshXpNeeded
  split_ifs <;> simp_all

theorem foldl_saveEnsured_tables (grad : List String) :
    ∀ (ts : List Nat) (db : DB),
      (ts.foldl (saveEnsured grad) db).friendships = db.friendships ∧
      (ts.foldl (saveEnsured grad) db).teams = db.teams ∧
      (ts.foldl (saveEnsured grad) db).memberships = db.memberships ∧
      (ts.foldl (saveEnsured grad) db).hackathons = db.hackathons ∧
      (ts.foldl (saveEnsured grad) db).hackathonTeams = db.hackathonTeams ∧
      (ts.foldl (saveEnsured grad) db).schools = db.schools ∧
      (ts.foldl (saveEnsured grad) db).majors = db.majors ∧
      (ts.foldl (saveEnsured grad) db).skills = db.skills ∧
      (ts.foldl (saveEnsured grad) db).interests = db.interests
  | [], db => ⟨rfl, rfl, rfl, rfl, rfl, rfl, rfl, rfl, rfl⟩
  | t :: ts, db => by
    have ih := foldl_saveEnsured_tables grad ts (saveEnsured grad db t)
    simpa [saveEnsured] using ih

theorem foldl_saveEnsured_users (grad : List String) :
    ∀ (ts : List Nat) (db : DB),
      (ts.foldl (saveEnsured grad) db).users = db.users.map (fun v =>
        if v.id ∈ ts then ensure_user_defaults grad v else v)
  | [], db => by simp
  | t :: ts, db => by
    have ih := foldl_saveEnsured_users grad ts (saveEnsured grad db t)
    rw [List.foldl_cons, ih]
    simp only [saveEnsured, List.map_map]
    refine congrArg (fun f => db.users.map f) (funext fun v => ?_)
    by_cases h1 : v.id = t <;> by_cases h2 : v.id ∈ ts <;>
      simp [Function.comp, h1, h2, List.mem_cons, ensure_user_defaults_id,
        ensure_user_defaults_idem]

/-- C8 counterexample: assembling the bootstrap payload for user 0 also
backfills the empty profile gradient of friend 1 — a stored field of an
entity other than the requesting user changes. -/
theorem c8_counterexample :
    ((findUser (bootstrapStore dbFriendNoGradient gradFresh 0) 1).map
        (fun v => v.profileGradient) = some gradFresh) ∧
    ((findUser dbFriendNoGradient 1).map (fun v => v.profileGradient) =
        some ([] : List String)) ∧
    findUser (bootstrapStore dbFriendNoGradient gradFresh 0) 1 ≠
      findUser dbFriendNoGradient 1 := by
  refine ⟨?_, ?_, ?_⟩ <;> decide

/-- C8 (amended): assembling the bootstrap payload changes no stored field
of any entity except the `profile_gradient` (backfilled only when missing)
and `xp_needed` (recomputed as `max(max(level,1)*100 - xp, 0)`) of the
requesting user and of the users serialized in the friends slice; every
other table and every other user row is unchanged. -/
theorem c8_bootstrap_store_frame (db : DB) (grad : List String) (u : Nat) :
    ((bootstrapStore db grad u).friendships = db.friendships ∧
     (bootstrapStore db grad u).teams = db.teams ∧
     (bootstrapStore db grad u).memberships = db.memberships ∧
     (bootstrapStore db grad u).hackathons = db.hackathons ∧
     (bootstrapStore db grad u).hackathonTeams = db.hackathonTeams ∧
     (bootstrapStore db grad u).schools = db.schools ∧
     (bootstrapStore db grad u).majors = db.majors ∧
     (bootstrapStore db grad u).skills = db.skills ∧
     (bootstrapStore db grad u).interests = db.interests) ∧
    (bootstrapStore db grad u).users = db.users.map (fun v =>
      if v.id ∈ bootstrapTargets db u then ensure_user_defaults grad v
      else v) ∧
    (∀ v : UserR,
      (ensure_user_defaults grad v).profileGradient =
        (if v.profileGradient = [] then grad else v.profileGradient) ∧
      (ensure_user_defaults grad v).xpNeeded =
        compute_xp_needed v.level v.xp ∧
      (ensure_user_defaults grad v).id = v.id ∧
      ((ensure_user_defaults grad v).email = v.email ∧
        (ensure_user_defaults grad v).username = v.username ∧
        (ensure_user_defaults grad v).firstName = v.firstName ∧
        (ensure_user_defaults grad v).lastName = v.lastName ∧
        (ensure_user_defaults grad v).visibility = v.visibility ∧
        (ensure_user_defaults grad v).xp = v.xp ∧
        (ensure_user_defaults grad v).level = v.level ∧
        (ensure_user_defaults grad v).school = v.school ∧
        (ensure_user_defaults grad v).gradYear = v.gradYear ∧
        (ensure_user_defaults grad v).major = v.major ∧
        (ensure_user_defaults grad v).discord = v.discord ∧
        (ensure_user_defaults grad v).instagram = v.instagram ∧
        (ensure_user_defaults grad v).github = v.github ∧
        (ensure_user_defaults grad v).linkedin = v.linkedin ∧
        (ensure_user_defaults grad v).personal = v.personal ∧
        (ensure_user_defaults grad v).bio = v.bio ∧
        (ensure_user_defaults grad v).skills = v.skills ∧
        (ensure_user_defaults grad v).interests = v.interests ∧
        (ensure_user_defaults grad v).blocked = v.blocked ∧
        (ensure_user_defaults grad v).dateJoined = v.dateJoined)) :=
  ⟨foldl_saveEnsured_tables grad (bootstrapTargets db u) db,
    foldl_saveEnsured_users grad (bootstrapTargets db u) db,
    fun v => ⟨ensure_user_defaults_gradient grad v,
      ensure_user_defaults_xpNeeded grad v,
      ensure_user_defaults_id grad v,
      ensure_user_defaults_frame grad v⟩⟩

/-- C9: the claim is right and the code has a slip: `SignupView.post`
computes `username or email.split("@")[0]` before the `if not email` check,
so a request with neither email nor username raises `AttributeError`
(`None.split`) instead of returning HTTP 400; with an empty-string email or
a present username the 400 path is reached as specified. -/
theorem c9_signup_missing_email_crash :
    signup_post dbEmpty none none (some "pass123") = .crash ∧
    signup_post dbEmpty (some "") none (some "pass123") = .response 400 ∧
    signup_post dbEmpty none (some "user") (some "pass123") = .response 400 := by
  refine ⟨?_, ?_, ?_⟩ <;> decide

/-- On PATCH the required-field checks never fire, so `to_internal_value`
reduces to the collected field validation. -/
theorem to_internal_value_patch (db : DB) (d : InData) :
    to_internal_value db .PATCH d =
      (match collectedErrs db d with
        | .error _ => .crash
        | .ok errs => if errs = [] then .valid else .invalid errs) := rfl

/-- C7 counterexample, two failure modes of "all validation errors are
collected and returned together": a POST payload missing both required
fields `email` and `username` gets back only the email error, and a PATCH
payload with an invalid email plus a non-integer skills id crashes with an
uncaught `ValueError` (HTTP 500), returning no mapping at all. -/
theorem c7_counterexample :
    ((dPostMissing.email = none ∧ dPostMissing.username = none) ∧
      to_internal_value dbEmpty .POST dPostMissing =
        .invalid [("email", "This field is required")]) ∧
    ((emailErrs dPatchCrash.email ≠ []) ∧
      to_internal_value dbEmpty .PATCH dPatchCrash = .crash ∧
      me_patch dbEmpty 0 dPatchCrash = (500, dbEmpty)) :=
  ⟨⟨⟨rfl, rfl⟩, rfl⟩, ⟨by decide, rfl, rfl⟩⟩

/-- C7 (amended): on profile update (PATCH), when validation completes
without an unhandled exception, every validation error is collected and the
whole mapping is returned at once — the returned list is exactly the
concatenation of the independent per-field checks, so every invalid field
contributes its entry; a non-integer id element in `skills`/`interests`
instead raises an uncaught `ValueError` (HTTP 500, no mapping); no store
mutation occurs unless validation succeeds, crash path included; on
signup-style POST a missing required field is reported alone (see the
counterexample). -/
theorem c7_patch_collects_all (db : DB) (u : Nat) (d : InData) :
    (∀ es, to_internal_value db .PATCH d = .invalid es →
      collectedErrs db d = .ok es ∧
      ∀ sk ints, m2mErrs "skills" db.skills d.skills = .ok sk →
        m2mErrs "interests" db.interests d.interests = .ok ints →
        ∀ g ∈ errGroups db d sk ints, ∀ e ∈ g, e ∈ es) ∧
    (to_internal_value db .PATCH d = .valid ↔
      collectedErrs db d = .ok []) ∧
    (to_internal_value db .PATCH d = .crash ↔
      (m2mErrs "skills" db.skills d.skills = .error () ∨
        m2mErrs "interests" db.interests d.interests = .error ())) ∧
    (∀ es, to_internal_value db .PATCH d = .invalid es →
      me_patch db u d = (400, db)) ∧
    (to_internal_value db .PATCH d = .crash → me_patch db u d = (500, db)) := by
  refine ⟨?_, ?_, ?_, ?_, ?_⟩
  · intro es hes
    rw [to_internal_value_patch] at hes
    split at hes
    case h_1 => cases hes
    case h_2 errs hco =>
      by_cases hnil : errs = []
      · rw [if_pos hnil] at hes; cases hes
      · rw [if_neg hnil] at hes
        have hes' := ValidationResult.invalid.inj hes
        subst hes'
        refine ⟨hco, ?_⟩
        intro sk ints hsk hints g hg e he
        have hflat : collectedErrs db d =
            .ok ((errGroups db d sk ints).flatten) := by
          rw [collectedErrs, hsk, hints]
        rw [hco] at hflat
        rw [Except.ok.inj hflat]
        exact List.mem_flatten.mpr ⟨g, hg, he⟩
  · rw [to_internal_value_patch]
    constructor
    · intro h
      split at h
      case h_1 => cases h
      case h_2 errs hco =>
        by_cases hnil : errs = []
        · rw [hnil] at hco; exact hco
        · rw [if_neg hnil] at h; cases h
    · intro h
      rw [h]
      rfl
  · rw [to_internal_value_patch]
    constructor
    · intro h
      split at h
      case h_2 errs hco =>
        by_cases hnil : errs = []
        · rw [if_pos hnil] at h; cases h
        · rw [if_neg hnil] at h; cases h
      case h_1 e hco =>
        rw [collectedErrs] at hco
        cases hsk : m2mErrs "skills" db.skills d.skills with
        | error w => exact Or.inl rfl
        | ok sk =>
          cases hints : m2mErrs "interests" db.interests d.interests with
          | error w => exact Or.inr rfl
          | ok ints => rw [hsk, hints] at hco; cases hco
    · intro h
      cases hsk : m2mErrs "skills" db.skills d.skills with
      | error w =>
        have hco : collectedErrs db d = .error () := by
          rw [collectedErrs, hsk]
        rw [hco]
      | ok sk =>
        rcases h with h1 | h2
        · rw [hsk] at h1; cases h1
        · have hco : collectedErrs db d = .error () := by
            rw [collectedErrs, hsk, h2]
          rw [hco]
  · intro es hes
    unfold me_patch
    rw [hes]
  · intro hes
    unfold me_patch
    rw [hes]

/-- C7 witness: a PATCH payload with an invalid email and an invalid
password gets both errors back together in one mapping and the store is
untouched; a PATCH payload with a non-integer skills id crashes and the
store is also untouched. -/
theorem c7_patch_collects_all_witness :
    collectedErrs dbEmpty dPatchBad = .ok dPatchBadErrs ∧
    ("email", "Must be a valid .edu email") ∈ dPatchBadErrs ∧
    ("password", "Password must be at least 6 characters.") ∈
      dPatchBadErrs ∧
    me_patch dbEmpty 0 dPatchBad = (400, dbEmpty) ∧
    me_patch dbEmpty 0 dPatchCrash = (500, dbEmpty) :=
  ⟨((c7_patch_collects_all dbEmpty 0 dPatchBad).1 dPatchBadErrs rfl).1,
    ((c7_patch_collects_all dbEmpty 0 dPatchBad).1 dPatchBadErrs rfl).2
      [] [] rfl rfl (emailErrs dPatchBad.email) (by simp [errGroups])
      _ (by decide),
    ((c7_patch_collects_all dbEmpty 0 dPatchBad).1 dPatchBadErrs rfl).2
      [] [] rfl rfl (passwordErrs dPatchBad.password) (by simp [errGroups])
      _ (by decide),
    (c7_patch_collects_all dbEmpty 0 dPatchBad).2.2.2.1 dPatchBadErrs rfl,
    (c7_patch_collects_all dbEmpty 0 dPatchCrash).2.2.2.2 rfl⟩

end Devision
